import Mathlib

/-!
Verification of the waste-classification mock service (src/app.py).

The Python source is shallowly embedded: the static lookup table WASTE_DATA
becomes an association list, the classifier classify_image_mock becomes a
total function parameterised by an oracle supplying the outcomes of the
random draws (random.randint, random.sample, random.uniform) and by the
outcome of the PIL image decode, and the Flask route classify_waste_api
becomes a function from a request value to a response body and HTTP status.
Exceptions inside the try block of classify_image_mock are modelled with
Except; the surrounding handler converts an error into the failure
dictionary exactly as the Python except clause does.
-/

set_option autoImplicit false

namespace WasteApp

/-- One value of the static lookup table WASTE_DATA (src/app.py lines 17-66):
category, bin_color, color and instructions fields. -/
structure WasteEntry where
  category : String
  bin_color : String
  color : String
  instructions : String
deriving DecidableEq, Repr

/-- The static lookup table WASTE_DATA from src/app.py lines 17-66, as an
association list preserving the insertion order of the Python dict. -/
def WASTE_DATA : List (String × WasteEntry) :=
  [ ("Plastic Bottle (PET)",
     { category := "Recyclable"
       bin_color := "Blue"
       color := "blue"
       instructions := "Rinse thoroughly, remove the cap, and flatten the bottle before placing in the recycling bin. Caps are often recycled separately." }),
    ("Aluminum Can",
     { category := "Recyclable"
       bin_color := "Blue"
       color := "blue"
       instructions := "Rinse out all food residue. Do not crush the can entirely, as automatic sorters may mistake crushed cans for general waste." }),
    ("Cardboard Box",
     { category := "Recyclable"
       bin_color := "Brown"
       color := "yellow"
       instructions := "Flatten the box completely. Remove all tape and shipping labels. If greasy (like a pizza box), tear off clean parts and put the greasy part in general waste." }),
    ("Newspaper/Magazine",
     { category := "Recyclable"
       bin_color := "Blue"
       color := "blue"
       instructions := "Keep dry. Place loose in the recycling bin. Do not tie with string or put in plastic bags." }),
    ("Banana Peel/Fruit Scraps",
     { category := "Organic/Compostable"
       bin_color := "Green"
       color := "green"
       instructions := "Place directly into the compost bin or dedicated green waste bin. Do not include any packaging." }),
    ("Used Batteries (AA/AAA)",
     { category := "Hazardous/E-Waste"
       bin_color := "Special Collection"
       color := "red"
       instructions := "Tape the terminals to prevent short circuits. Take to a specialized collection point (e.g., library, municipality center, or retail store drop-off)." }),
    ("Light Bulb (Incandescent)",
     { category := "General Waste"
       bin_color := "Black/Gray"
       color := "gray"
       instructions := "Wrap in paper or a plastic bag to prevent injury from broken glass and place carefully in the general waste bin." }),
    ("Plastic Film/Bags",
     { category := "General Waste"
       bin_color := "Black/Gray"
       color := "gray"
       instructions := "Plastic films and bags jam recycling machinery. Dispose of in general waste, or check for specific local drop-off points." }) ]

/-- The list list(WASTE_DATA.keys()) built in classify_image_mock
(src/app.py line 80). -/
def all_materials : List String := WASTE_DATA.map Prod.fst

/-- Boolean test that the first list is an initial segment of the second,
used to embed the Python substring operator. -/
def leadMatch : List Char → List Char → Bool
  | [], _ => true
  | _ :: _, [] => false
  | a :: as, b :: bs => a == b && leadMatch as bs

/-- Boolean test that the first list occurs contiguously inside the second. -/
def subIn (needle : List Char) : List Char → Bool
  | [] => leadMatch needle []
  | c :: rest => leadMatch needle (c :: rest) || subIn needle rest

/-- Embedding of the Python expression needle in hay for strings
(substring containment), as used on category labels in src/app.py line 95. -/
def strContains (hay needle : String) : Bool :=
  subIn needle.toList hay.toList

/-- The summary dictionary built by classify_image_mock
(src/app.py line 87). -/
structure Summary where
  recyclable_items : Nat
  hazardous_items : Nat
  general_waste_items : Nat
deriving DecidableEq, Repr

/-- The all-zero summary used both as the loop seed and in the failure
dictionary. -/
def zeroSummary : Summary :=
  { recyclable_items := 0, hazardous_items := 0, general_waste_items := 0 }

/-- One element of the materials list of a response
(src/app.py lines 100-109): the detected material name, the mock
confidence and the embedded classification fields. -/
structure MaterialOut where
  detected_material : String
  confidence : ℚ
  classification : WasteEntry
deriving DecidableEq, Repr

/-- The full dictionary returned by classify_image_mock
(src/app.py lines 111-117 on success, 127-133 on failure). -/
structure ClassificationResult where
  success : Bool
  message : String
  total_materials_detected : Nat
  summary : Summary
  materials : List MaterialOut
deriving DecidableEq, Repr

/-- Embedding of random.uniform(a, b): the value a + (b - a) * u where u is
the unit-interval draw supplied by the random oracle. -/
def pyUniform (a b u : ℚ) : ℚ := a + (b - a) * u

/-- The outcomes of the random draws made by one call to
classify_image_mock: the value of random.randint(2, 4), the permutation of
the population underlying random.sample, and the unit-interval draws
underlying the successive random.uniform(0.75, 0.99) calls. -/
structure RandOracle where
  num_detections : Nat
  perm : List String
  unit : Nat → ℚ

/-- The contract of the random module for the draws used here:
random.randint(2, 4) yields an integer in [2, 4], random.sample draws from
a uniformly random permutation of the population, and each unit draw lies
in [0, 1]. -/
def RandOracle.Valid (o : RandOracle) : Prop :=
  2 ≤ o.num_detections ∧ o.num_detections ≤ 4 ∧
    List.Perm o.perm all_materials ∧ ∀ i, 0 ≤ o.unit i ∧ o.unit i ≤ 1

/-- Embedding of random.sample(population, k) on the oracle permutation:
the first k elements when k does not exceed the population size, and a
ValueError otherwise (src/app.py line 83). -/
def pySample (perm : List String) (k : Nat) : Except String (List String) :=
  if k ≤ perm.length then .ok (perm.take k)
  else .error "Sample larger than population or is negative"

/-- Embedding of the per-material update of the summary dictionary
(src/app.py lines 93-98): the if / elif / else chain on the category
label, where the elif performs Python substring tests. -/
def updateSummary (s : Summary) (data : WasteEntry) : Summary :=
  if data.category == "Recyclable" then
    { s with recyclable_items := s.recyclable_items + 1 }
  else if strContains data.category "Hazardous" || strContains data.category "E-Waste" then
    { s with hazardous_items := s.hazardous_items + 1 }
  else
    { s with general_waste_items := s.general_waste_items + 1 }

/-- Embedding of the loop over detected_materials (src/app.py lines
89-109): thread the summary through updateSummary and emit one materials
entry per name, the i-th entry taking its confidence from the i-th
random.uniform draw. A missing key would raise a KeyError, modelled as an
error that aborts the loop. -/
def buildLoop (unit : Nat → ℚ) :
    List String → Nat → Summary → Except String (Summary × List MaterialOut)
  | [], _, s => .ok (s, [])
  | name :: rest, i, s =>
    match WASTE_DATA.lookup name with
    | none => .error name
    | some data =>
      match buildLoop unit rest (i + 1) (updateSummary s data) with
      | .error e => .error e
      | .ok (sf, ms) =>
        .ok (sf, { detected_material := name
                   confidence := pyUniform (3/4) (99/100) (unit i)
                   classification := data } :: ms)

/-- The body of the try block of classify_image_mock (src/app.py lines
76-123): decode the image, draw the sample size and the sample, run the
loop and assemble the success dictionary. An error models an exception
propagating to the except clause. -/
def classifyBody (decodeOk : Bool) (o : RandOracle) :
    Except String ClassificationResult :=
  if decodeOk = false then .error "cannot identify image file"
  else
    match pySample o.perm o.num_detections with
    | .error e => .error e
    | .ok detected_materials =>
      match buildLoop o.unit detected_materials 0 zeroSummary with
      | .error e => .error e
      | .ok (summary, materials_output) =>
        .ok { success := true
              message := "Classification successful."
              total_materials_detected := materials_output.length
              summary := summary
              materials := materials_output }

/-- The failure dictionary produced by the except clause of
classify_image_mock (src/app.py lines 127-133). -/
def failureResult (e : String) : ClassificationResult :=
  { success := false
    message := "Server processing failed (Error: " ++ e ++ "). Ensure the input file is a valid image."
    total_materials_detected := 0
    summary := zeroSummary
    materials := [] }

/-- Embedding of classify_image_mock (src/app.py lines 70-133): run the
try-block body and convert any exception into the failure dictionary.
The decodeOk argument records whether PIL Image.open succeeds on the
supplied bytes; the oracle records the random draws. -/
def classify_image_mock (decodeOk : Bool) (o : RandOracle) :
    ClassificationResult :=
  match classifyBody decodeOk o with
  | .ok r => r
  | .error e => failureResult e

/-- One uploaded file part of a request: its filename and its raw bytes. -/
structure FilePart where
  filename : String
  content : List Nat
deriving DecidableEq, Repr

/-- The parts of an HTTP request that classify_waste_api can observe:
request.files as an association list from field name to file part, and an
optional base64 image field carried in the JSON body or form. -/
structure HttpRequest where
  files : List (String × FilePart)
  image_base64 : Option String
deriving DecidableEq

/-- A JSON response body of the route: either the short
success-and-message dictionary of the 400 branches, or a full
classification result. -/
inductive ApiBody where
  | simple (ok : Bool) (message : String)
  | result (r : ClassificationResult)
deriving DecidableEq, Repr

/-- The success flag of a response body. -/
def ApiBody.success : ApiBody → Bool
  | .simple ok _ => ok
  | .result r => r.success

/-- The message of a response body. -/
def ApiBody.message : ApiBody → String
  | .simple _ m => m
  | .result r => r.message

/-- Embedding of the route classify_waste_api (src/app.py lines 137-164):
reject a request without a file part named file, reject an empty filename,
otherwise read the bytes, call classify_image_mock and map its success
flag to status 200 or 500. The decode argument records, per byte string,
whether PIL Image.open succeeds on it. -/
def classify_waste_api (decode : List Nat → Bool) (o : RandOracle)
    (req : HttpRequest) : ApiBody × Nat :=
  match req.files.lookup "file" with
  | none => (.simple false "No file part in the request", 400)
  | some file =>
    if file.filename = "" then (.simple false "No selected file", 400)
    else
      let image_bytes := file.content
      let results := classify_image_mock (decode image_bytes) o
      if results.success then (.result results, 200)
      else (.result results, 500)

/-- Modelled from the spec: a decimal-number parser standing in for the
numeric parsing of the confidence-threshold configuration value, which is
absent from src/app.py. Accepts an optional leading minus sign, a
non-empty run of digits, and an optional fractional part introduced by a
dot; anything else is unparsable. -/
def parseDecimal (s : String) : Option ℚ :=
  let step : Option ℚ → Char → Option ℚ := fun acc c =>
    match acc with
    | none => none
    | some v => if c.isDigit then some (v * 10 + (c.toNat - 48 : ℕ)) else none
  let digitsVal : List Char → Option ℚ := fun cs =>
    if cs.isEmpty then none else cs.foldl step (some 0)
  let core : List Char → Option ℚ := fun cs =>
    match cs.splitOn '.' with
    | [intPart] => digitsVal intPart
    | [intPart, fracPart] =>
      match digitsVal intPart, digitsVal fracPart with
      | some i, some f => some (i + f / (10 : ℚ) ^ fracPart.length)
      | _, _ => none
    | _ => none
  match s.toList with
  | '-' :: rest => (core rest).map Neg.neg
  | cs => core cs

/-- Modelled from the spec: the numeric confidence threshold read from the
process environment at startup, defaulting to 0.70 when the variable is
absent or unparsable (spec section 6); src/app.py reads no such variable. -/
def confidenceThreshold (env : Option String) : ℚ :=
  match env with
  | none => 7/10
  | some s => (parseDecimal s).getD (7/10)

/-- The maximum of a list of rationals, ties resolved to the first
occurrence, in the style of the Python max builtin; none on an empty
list. -/
def listMax : List ℚ → Option ℚ
  | [] => none
  | x :: xs =>
    match listMax xs with
    | none => some x
    | some m => some (if x < m then m else x)

/-- The best confidence among the materials of a result, first occurrence
winning ties. -/
def maxConfidence (ms : List MaterialOut) : Option ℚ :=
  listMax (ms.map MaterialOut.confidence)

/-- The fixed suppression dictionary of the threshold-gating variant:
success false, a no-waste-item-detected message, zero counts and no
candidate details. -/
def noDetectionResult : ClassificationResult :=
  { success := false
    message := "No waste item detected."
    total_materials_detected := 0
    summary := zeroSummary
    materials := [] }

/-- Modelled from the spec: the threshold-gating variant of the classifier
(spec section 4.2 steps 4-5), which src/app.py does not implement (it is
the always-report variant). Candidates are generated exactly as in
classify_image_mock; if the maximum confidence among them is strictly
below the threshold the whole result is replaced by the suppression
dictionary. -/
def classify_image_mock_gated (threshold : ℚ) (decodeOk : Bool)
    (o : RandOracle) : ClassificationResult :=
  let r := classify_image_mock decodeOk o
  if r.success then
    match maxConfidence r.materials with
    | none => r
    | some best => if best < threshold then noDetectionResult else r
  else r

/-- The branch condition of the first bucket of the summary chain: the
category label equals Recyclable. -/
def recycleBucket (e : WasteEntry) : Bool :=
  e.category == "Recyclable"

/-- The branch condition of the second bucket: not the first, and the
category label contains Hazardous or E-Waste as a substring. -/
def hazardBucket (e : WasteEntry) : Bool :=
  !(recycleBucket e) &&
    (strContains e.category "Hazardous" || strContains e.category "E-Waste")

/-- The branch condition of the final else bucket. -/
def generalBucket (e : WasteEntry) : Bool :=
  !(recycleBucket e) &&
    !(strContains e.category "Hazardous" || strContains e.category "E-Waste")

/-- The sum of the three bucket counts of a summary. -/
def Summary.total (s : Summary) : Nat :=
  s.recyclable_items + s.hazardous_items + s.general_waste_items

theorem updateSummary_buckets (s : Summary) (d : WasteEntry) :
    (updateSummary s d).recyclable_items
        = s.recyclable_items + (if recycleBucket d then 1 else 0) ∧
      (updateSummary s d).hazardous_items
        = s.hazardous_items + (if hazardBucket d then 1 else 0) ∧
      (updateSummary s d).general_waste_items
        = s.general_waste_items + (if generalBucket d then 1 else 0) := by
  cases h1 : (d.category == "Recyclable") <;>
    cases h2 : (strContains d.category "Hazardous" || strContains d.category "E-Waste") <;>
    simp [updateSummary, recycleBucket, hazardBucket, generalBucket, h1, h2]

theorem updateSummary_total (s : Summary) (d : WasteEntry) :
    (updateSummary s d).total = s.total + 1 := by
  unfold updateSummary Summary.total
  split <;> (try split) <;> simp <;> omega

theorem buildLoop_cons_ok (unit : Nat → ℚ) (name : String) (rest : List String)
    (i : Nat) (s sf : Summary) (ms : List MaterialOut)
    (h : buildLoop unit (name :: rest) i s = .ok (sf, ms)) :
    ∃ data sf2 ms2, WASTE_DATA.lookup name = some data ∧
      buildLoop unit rest (i + 1) (updateSummary s data) = .ok (sf2, ms2) ∧
      sf = sf2 ∧
      ms = { detected_material := name,
             confidence := pyUniform (3/4) (99/100) (unit i),
             classification := data } :: ms2 := by
  rw [buildLoop] at h
  split at h
  · exact absurd h (by simp)
  · split at h
    · exact absurd h (by simp)
    · rename_i x1 data hl x2 sf2 ms2 hr
      simp only [Except.ok.injEq, Prod.mk.injEq] at h
      exact ⟨data, sf2, ms2, hl, hr, h.1.symm, h.2.symm⟩

theorem buildLoop_ok_names (unit : Nat → ℚ) :
    ∀ (names : List String) (i : Nat) (s sf : Summary) (ms : List MaterialOut),
      buildLoop unit names i s = .ok (sf, ms) →
      ms.map MaterialOut.detected_material = names := by
  intro names
  induction names with
  | nil =>
    intro i s sf ms h
    simp only [buildLoop, Except.ok.injEq, Prod.mk.injEq] at h
    simp [← h.2]
  | cons name rest ih =>
    intro i s sf ms h
    obtain ⟨data, sf2, ms2, hl, hr, hsf, hms⟩ := buildLoop_cons_ok unit name rest i s sf ms h
    simp [hms, ih _ _ _ _ hr]

theorem buildLoop_ok_counts (unit : Nat → ℚ) :
    ∀ (names : List String) (i : Nat) (s sf : Summary) (ms : List MaterialOut),
      buildLoop unit names i s = .ok (sf, ms) →
      sf.recyclable_items
          = s.recyclable_items
            + (ms.filter (fun m => recycleBucket m.classification)).length ∧
        sf.hazardous_items
          = s.hazardous_items
            + (ms.filter (fun m => hazardBucket m.classification)).length ∧
        sf.general_waste_items
          = s.general_waste_items
            + (ms.filter (fun m => generalBucket m.classification)).length := by
  intro names
  induction names with
  | nil =>
    intro i s sf ms h
    simp only [buildLoop, Except.ok.injEq, Prod.mk.injEq] at h
    simp [← h.1, ← h.2]
  | cons name rest ih =>
    intro i s sf ms h
    obtain ⟨data, sf2, ms2, hl, hr, hsf, hms⟩ := buildLoop_cons_ok unit name rest i s sf ms h
    obtain ⟨u1, u2, u3⟩ := updateSummary_buckets s data
    obtain ⟨g1, g2, g3⟩ := ih _ _ _ _ hr
    subst hsf
    refine ⟨?_, ?_, ?_⟩ <;>
      simp only [hms, List.filter_cons] <;>
      [rw [g1, u1]; rw [g2, u2]; rw [g3, u3]] <;>
      split <;> simp <;> omega

theorem buildLoop_ok_total (unit : Nat → ℚ) :
    ∀ (names : List String) (i : Nat) (s sf : Summary) (ms : List MaterialOut),
      buildLoop unit names i s = .ok (sf, ms) →
      sf.total = s.total + ms.length := by
  intro names
  induction names with
  | nil =>
    intro i s sf ms h
    simp only [buildLoop, Except.ok.injEq, Prod.mk.injEq] at h
    simp [← h.1, ← h.2]
  | cons name rest ih =>
    intro i s sf ms h
    obtain ⟨data, sf2, ms2, hl, hr, hsf, hms⟩ := buildLoop_cons_ok unit name rest i s sf ms h
    subst hsf
    have := ih _ _ _ _ hr
    rw [updateSummary_total] at this
    simp [hms, this]
    omega

theorem buildLoop_ok_conf (unit : Nat → ℚ) :
    ∀ (names : List String) (i : Nat) (s sf : Summary) (ms : List MaterialOut),
      buildLoop unit names i s = .ok (sf, ms) →
      ∀ m ∈ ms, ∃ j, m.confidence = pyUniform (3/4) (99/100) (unit j) := by
  intro names
  induction names with
  | nil =>
    intro i s sf ms h
    simp only [buildLoop, Except.ok.injEq, Prod.mk.injEq] at h
    simp [← h.2]
  | cons name rest ih =>
    intro i s sf ms h
    obtain ⟨data, sf2, ms2, hl, hr, hsf, hms⟩ := buildLoop_cons_ok unit name rest i s sf ms h
    intro m hm
    rw [hms] at hm
    rcases List.mem_cons.mp hm with hm | hm
    · exact ⟨i, by rw [hm]⟩
    · exact ih _ _ _ _ hr m hm

theorem buildLoop_ok_lookup (unit : Nat → ℚ) :
    ∀ (names : List String) (i : Nat) (s sf : Summary) (ms : List MaterialOut),
      buildLoop unit names i s = .ok (sf, ms) →
      ∀ m ∈ ms, WASTE_DATA.lookup m.detected_material = some m.classification := by
  intro names
  induction names with
  | nil =>
    intro i s sf ms h
    simp only [buildLoop, Except.ok.injEq, Prod.mk.injEq] at h
    simp [← h.2]
  | cons name rest ih =>
    intro i s sf ms h
    obtain ⟨data, sf2, ms2, hl, hr, hsf, hms⟩ := buildLoop_cons_ok unit name rest i s sf ms h
    intro m hm
    rw [hms] at hm
    rcases List.mem_cons.mp hm with hm | hm
    · rw [hm]; exact hl
    · exact ih _ _ _ _ hr m hm

theorem classifyBody_ok (d : Bool) (o : RandOracle) (r : ClassificationResult)
    (h : classifyBody d o = .ok r) :
    ∃ names sf ms, pySample o.perm o.num_detections = .ok names ∧
      buildLoop o.unit names 0 zeroSummary = .ok (sf, ms) ∧
      r = { success := true
            message := "Classification successful."
            total_materials_detected := ms.length
            summary := sf
            materials := ms } := by
  rw [classifyBody] at h
  split at h
  · exact absurd h (by simp)
  · split at h
    · exact absurd h (by simp)
    · split at h
      · exact absurd h (by simp)
      · rename_i x1 names hs x2 sf ms hb
        simp only [Except.ok.injEq] at h
        exact ⟨names, sf, ms, hs, hb, h.symm⟩

theorem classify_image_mock_cases (d : Bool) (o : RandOracle) :
    (∃ r, classifyBody d o = .ok r ∧ classify_image_mock d o = r) ∨
      ∃ e, classifyBody d o = .error e ∧
        classify_image_mock d o = failureResult e := by
  cases hb : classifyBody d o with
  | ok r => exact Or.inl ⟨r, rfl, by rw [classify_image_mock, hb]⟩
  | error e => exact Or.inr ⟨e, rfl, by rw [classify_image_mock, hb]⟩

theorem classify_success_inv (d : Bool) (o : RandOracle)
    (h : (classify_image_mock d o).success = true) :
    ∃ names sf ms, pySample o.perm o.num_detections = .ok names ∧
      buildLoop o.unit names 0 zeroSummary = .ok (sf, ms) ∧
      classify_image_mock d o
        = { success := true
            message := "Classification successful."
            total_materials_detected := ms.length
            summary := sf
            materials := ms } := by
  rcases classify_image_mock_cases d o with ⟨r, hb, he⟩ | ⟨e, hb, he⟩
  · obtain ⟨names, sf, ms, h1, h2, h3⟩ := classifyBody_ok d o r hb
    exact ⟨names, sf, ms, h1, h2, by rw [he, h3]⟩
  · rw [he] at h
    exact absurd h (by simp [failureResult])

/-- A concrete random oracle used to witness the claims: the sample size
is 2, the permutation is the identity permutation of the key list, and
every unit draw is 0. -/
def oracle0 : RandOracle :=
  { num_detections := 2, perm := all_materials, unit := fun _ => 0 }

/-- C1: for every successful classification response the three summary
bucket counts partition the materials list by category with no
double-counting and no omission, their sum equals the number of entries of
the materials list, and total_materials_detected equals the length of the
materials list. -/
theorem C1_summary_partition (d : Bool) (o : RandOracle)
    (h : (classify_image_mock d o).success = true) :
    (classify_image_mock d o).summary.recyclable_items
        = ((classify_image_mock d o).materials.filter
            (fun m => recycleBucket m.classification)).length ∧
      (classify_image_mock d o).summary.hazardous_items
        = ((classify_image_mock d o).materials.filter
            (fun m => hazardBucket m.classification)).length ∧
      (classify_image_mock d o).summary.general_waste_items
        = ((classify_image_mock d o).materials.filter
            (fun m => generalBucket m.classification)).length ∧
      (classify_image_mock d o).summary.recyclable_items
          + (classify_image_mock d o).summary.hazardous_items
          + (classify_image_mock d o).summary.general_waste_items
        = (classify_image_mock d o).materials.length ∧
      (classify_image_mock d o).total_materials_detected
        = (classify_image_mock d o).materials.length := by
  obtain ⟨names, sf, ms, h1, h2, h3⟩ := classify_success_inv d o h
  rw [h3]
  dsimp only
  obtain ⟨g1, g2, g3⟩ := buildLoop_ok_counts o.unit names 0 zeroSummary sf ms h2
  have gt := buildLoop_ok_total o.unit names 0 zeroSummary sf ms h2
  simp only [zeroSummary] at g1 g2 g3
  rw [Summary.total, Summary.total] at gt
  simp only [zeroSummary] at gt
  exact ⟨by simpa using g1, by simpa using g2, by simpa using g3, by omega, rfl⟩

/-- C1 witness: the partition property holds at a concrete decode flag and
oracle for which classification succeeds. -/
theorem C1_summary_partition_witness :
    (classify_image_mock true oracle0).success = true ∧
      ((classify_image_mock true oracle0).summary.recyclable_items
          + (classify_image_mock true oracle0).summary.hazardous_items
          + (classify_image_mock true oracle0).summary.general_waste_items
        = (classify_image_mock true oracle0).materials.length ∧
        (classify_image_mock true oracle0).total_materials_detected
          = (classify_image_mock true oracle0).materials.length) :=
  ⟨by decide, ⟨(C1_summary_partition true oracle0 (by decide)).2.2.2.1,
    (C1_summary_partition true oracle0 (by decide)).2.2.2.2⟩⟩

/-- C6: the classifier never raises past its boundary: for every decode
outcome and every oracle, classify_image_mock returns either a successful
result or the failure dictionary with success false, zero
total_materials_detected, an all-zero summary and an empty materials
list. -/
theorem C6_exception_boundary (d : Bool) (o : RandOracle) :
    (classify_image_mock d o).success = true ∨
      ((classify_image_mock d o).success = false ∧
        (classify_image_mock d o).total_materials_detected = 0 ∧
        (classify_image_mock d o).summary = zeroSummary ∧
        (classify_image_mock d o).materials = []) := by
  rcases classify_image_mock_cases d o with ⟨r, hb, he⟩ | ⟨e, hb, he⟩
  · left
    rw [he]
    obtain ⟨_, _, _, _, _, h3⟩ := classifyBody_ok d o r hb
    rw [h3]
  · right
    rw [he]
    simp [failureResult, zeroSummary]

theorem all_materials_nodup : all_materials.Nodup := by decide

theorem pySample_ok_inv (perm : List String) (k : Nat) (names : List String)
    (h : pySample perm k = .ok names) :
    k ≤ perm.length ∧ names = perm.take k := by
  rw [pySample] at h
  split at h
  · rename_i hk
    simp only [Except.ok.injEq] at h
    exact ⟨hk, h.symm⟩
  · exact absurd h (by simp)

/-- C2: in every successful classification response, every returned
identifier is a key of WASTE_DATA, and the identifiers of one response
contain no duplicate. -/
theorem C2_identifiers_from_table (d : Bool) (o : RandOracle)
    (hperm : List.Perm o.perm all_materials)
    (h : (classify_image_mock d o).success = true) :
    (∀ m ∈ (classify_image_mock d o).materials,
        m.detected_material ∈ all_materials) ∧
      ((classify_image_mock d o).materials.map
        MaterialOut.detected_material).Nodup := by
  obtain ⟨names, sf, ms, h1, h2, h3⟩ := classify_success_inv d o h
  rw [h3]
  dsimp only
  have hnames := buildLoop_ok_names o.unit names 0 zeroSummary sf ms h2
  obtain ⟨hk, htake⟩ := pySample_ok_inv o.perm o.num_detections names h1
  have hsub : names ⊆ o.perm := by
    rw [htake]
    exact (List.take_sublist _ _).subset
  constructor
  · intro m hm
    have : m.detected_material ∈ names := by
      rw [← hnames]
      exact List.mem_map_of_mem MaterialOut.detected_material hm
    exact (hperm.mem_iff).mp (hsub this)
  · rw [hnames, htake]
    have hpn : o.perm.Nodup := (hperm.nodup_iff).mpr all_materials_nodup
    exact hpn.sublist (List.take_sublist _ _)

/-- C2 witness: at a concrete oracle the returned identifiers are keys of
the table and duplicate-free. -/
theorem C2_identifiers_from_table_witness :
    List.Perm oracle0.perm all_materials ∧
      (classify_image_mock true oracle0).success = true ∧
      ((classify_image_mock true oracle0).materials.map
        MaterialOut.detected_material).Nodup :=
  ⟨List.Perm.refl _, by decide,
    (C2_identifiers_from_table true oracle0 (List.Perm.refl _) (by decide)).2⟩

/-- C7: in every successful classification response, under the contract of
random.uniform (each unit draw lies in the unit interval), every
confidence lies in the fixed range from 0.75 to 0.99, each one the affine
image of its own independent unit draw. -/
theorem C7_confidence_range (d : Bool) (o : RandOracle)
    (hu : ∀ i, 0 ≤ o.unit i ∧ o.unit i ≤ 1)
    (h : (classify_image_mock d o).success = true) :
    ∀ m ∈ (classify_image_mock d o).materials,
      (3/4 : ℚ) ≤ m.confidence ∧ m.confidence ≤ 99/100 := by
  obtain ⟨names, sf, ms, h1, h2, h3⟩ := classify_success_inv d o h
  rw [h3]
  dsimp only
  intro m hm
  obtain ⟨j, hj⟩ := buildLoop_ok_conf o.unit names 0 zeroSummary sf ms h2 m hm
  rw [hj, pyUniform]
  obtain ⟨hl, hr⟩ := hu j
  constructor <;> nlinarith

/-- C7 witness: the bounds hold for the first confidence produced at a
concrete oracle whose unit draws are all zero. -/
theorem C7_confidence_range_witness :
    (3/4 : ℚ)
        ≤ ((classify_image_mock true oracle0).materials.map
            MaterialOut.confidence).getD 0 0 ∧
      ((classify_image_mock true oracle0).materials.map
          MaterialOut.confidence).getD 0 0 ≤ 99/100 := by
  have hm : ((classify_image_mock true oracle0).materials.getD 0
        { detected_material := "", confidence := 0,
          classification := { category := "", bin_color := "", color := "",
                              instructions := "" } })
      ∈ (classify_image_mock true oracle0).materials := by
    with_unfolding_all decide
  have h := C7_confidence_range true oracle0
    (fun i => ⟨le_refl 0, zero_le_one⟩) (by decide) _ hm
  have he : ((classify_image_mock true oracle0).materials.map
        MaterialOut.confidence).getD 0 0
      = ((classify_image_mock true oracle0).materials.getD 0
          { detected_material := "", confidence := 0,
            classification := { category := "", bin_color := "", color := "",
                                instructions := "" } }).confidence := by
    with_unfolding_all decide
  rw [he]
  exact h

/-- C8: under the contract of random.randint(2, 4) and random.sample, in
every successful classification the number of returned candidates equals
the drawn n, lies in the inclusive range from 2 to 4, never exceeds the
number of distinct entries of the lookup table, and the draw is without
replacement (no duplicate identifiers). -/
theorem C8_sample_size (d : Bool) (o : RandOracle)
    (h2 : 2 ≤ o.num_detections) (h4 : o.num_detections ≤ 4)
    (hperm : List.Perm o.perm all_materials)
    (h : (classify_image_mock d o).success = true) :
    o.num_detections ≤ all_materials.length ∧
      (classify_image_mock d o).materials.length = o.num_detections ∧
      2 ≤ (classify_image_mock d o).materials.length ∧
      (classify_image_mock d o).materials.length ≤ 4 ∧
      ((classify_image_mock d o).materials.map
        MaterialOut.detected_material).Nodup := by
  have hlen : o.perm.length = all_materials.length := hperm.length_eq
  have hal : all_materials.length = 8 := by decide
  obtain ⟨names, sf, ms, h1, h2', h3⟩ := classify_success_inv d o h
  obtain ⟨hk, htake⟩ := pySample_ok_inv o.perm o.num_detections names h1
  have hnames := buildLoop_ok_names o.unit names 0 zeroSummary sf ms h2'
  have hmslen : ms.length = o.num_detections := by
    have : (ms.map MaterialOut.detected_material).length = names.length := by
      rw [hnames]
    rw [List.length_map] at this
    rw [this, htake, List.length_take, hlen, hal]
    omega
  have hnd := (C2_identifiers_from_table d o hperm h).2
  refine ⟨by omega, ?_, ?_, ?_, hnd⟩ <;> rw [h3] <;> dsimp only <;> omega

/-- C8 witness: the sample-size facts hold at a concrete oracle drawing
n equal to 2. -/
theorem C8_sample_size_witness :
    2 ≤ oracle0.num_detections ∧ oracle0.num_detections ≤ 4 ∧
      (classify_image_mock true oracle0).materials.length
        = oracle0.num_detections :=
  ⟨by decide, by decide,
    (C8_sample_size true oracle0 (by decide) (by decide) (List.Perm.refl _)
      (by decide)).2.1⟩

/-- C10: the lookup table holds exactly 8 distinct entries, so every
sample size drawn from the range 2 to 4 is at most the population size and
random.sample is always well-defined: under the oracle contract it
returns, without raising, a list of exactly the drawn length. -/
theorem C10_population_sufficient :
    all_materials.length = 8 ∧ all_materials.Nodup ∧
      (∀ n, 2 ≤ n → n ≤ 4 → n ≤ all_materials.length) ∧
      ∀ o : RandOracle, 2 ≤ o.num_detections → o.num_detections ≤ 4 →
        List.Perm o.perm all_materials →
        ∃ names, pySample o.perm o.num_detections = .ok names ∧
          names.length = o.num_detections := by
  refine ⟨by decide, all_materials_nodup, ?_, ?_⟩
  · intro n h2 h4
    have h8 : all_materials.length = 8 := by decide
    omega
  intro o h2 h4 hperm
  have hlen : o.perm.length = all_materials.length := hperm.length_eq
  have hal : all_materials.length = 8 := by decide
  have hk : o.num_detections ≤ o.perm.length := by omega
  refine ⟨o.perm.take o.num_detections, ?_, ?_⟩
  · rw [pySample, if_pos hk]
  · rw [List.length_take]
    omega

/-- C10 witness: the well-definedness of the draw instantiated at a
concrete oracle. -/
theorem C10_population_sufficient_witness :
    2 ≤ oracle0.num_detections ∧ oracle0.num_detections ≤ 4 ∧
      ∃ names, pySample oracle0.perm oracle0.num_detections = .ok names ∧
        names.length = oracle0.num_detections :=
  ⟨by decide, by decide,
    C10_population_sufficient.2.2.2 oracle0 (by decide) (by decide)
      (List.Perm.refl _)⟩

/-- C3: in the threshold-gating variant, modelled from the spec with the
threshold read from the process environment and defaulting to 0.70 when
absent or unparsable, every request whose maximum internally generated
confidence is strictly below the threshold is answered with success false,
an empty materials list and an all-zero summary, even though candidates
were generated. -/
theorem C3_threshold_gating (env : Option String) (d : Bool) (o : RandOracle)
    (b : ℚ)
    (hs : (classify_image_mock d o).success = true)
    (hmax : maxConfidence (classify_image_mock d o).materials = some b)
    (hlt : b < confidenceThreshold env) :
    (classify_image_mock_gated (confidenceThreshold env) d o).success
        = false ∧
      (classify_image_mock_gated (confidenceThreshold env) d o).materials
        = [] ∧
      (classify_image_mock_gated (confidenceThreshold env) d o).summary
        = zeroSummary ∧
      confidenceThreshold none = 7/10 ∧
      (∀ s, parseDecimal s = none → confidenceThreshold (some s) = 7/10) := by
  have hg : classify_image_mock_gated (confidenceThreshold env) d o
      = noDetectionResult := by
    rw [classify_image_mock_gated]
    simp only [hs, if_true, hmax]
    rw [if_pos hlt]
  rw [hg]
  refine ⟨rfl, rfl, rfl, rfl, ?_⟩
  intro s h
  simp [confidenceThreshold, h]

/-- C3 witness: with the threshold configured to 0.9 and an oracle whose
unit draws are all zero, the generated maximum confidence 0.75 is below
the threshold and the gated response is suppressed. -/
theorem C3_threshold_gating_witness :
    (classify_image_mock true oracle0).success = true ∧
      maxConfidence (classify_image_mock true oracle0).materials
        = some (3/4) ∧
      (3/4 : ℚ) < confidenceThreshold (some "0.9") ∧
      (classify_image_mock_gated (confidenceThreshold (some "0.9")) true
          oracle0).success = false ∧
      (classify_image_mock_gated (confidenceThreshold (some "0.9")) true
          oracle0).materials = [] :=
  ⟨by decide, by with_unfolding_all decide, by with_unfolding_all decide,
    (C3_threshold_gating (some "0.9") true oracle0 (3/4) (by decide)
      (by with_unfolding_all decide) (by with_unfolding_all decide)).1,
    (C3_threshold_gating (some "0.9") true oracle0 (3/4) (by decide)
      (by with_unfolding_all decide) (by with_unfolding_all decide)).2.1⟩

/-- A concrete request whose file part carries bytes that do not decode as
an image. -/
def badImageReq : HttpRequest :=
  { files := [("file", { filename := "bad.png", content := [0] })]
    image_base64 := none }

/-- C4 counterexample: at a concrete request whose file bytes fail to
decode, the endpoint answers with status 500, not 400 as the claim
states. -/
theorem C4_counterexample :
    (classify_waste_api (fun _ => false) oracle0 badImageReq).2 = 500 ∧
      ¬((classify_waste_api (fun _ => false) oracle0 badImageReq).2 = 400) ∧
      (classify_waste_api (fun _ => false) oracle0 badImageReq).1.success
        = false := by
  decide

/-- C4 amended: every request whose supplied image bytes fail to decode is
answered with HTTP status 500 and a success false body whose message says
to supply a valid image; status 400 arises only from a missing file part
or an empty filename. -/
theorem C4_invalid_image_yields_500 (decode : List Nat → Bool)
    (o : RandOracle) (req : HttpRequest) (f : FilePart)
    (hf : req.files.lookup "file" = some f) (hn : ¬(f.filename = ""))
    (hd : decode f.content = false) :
    (classify_waste_api decode o req).2 = 500 ∧
      (classify_waste_api decode o req).1.success = false ∧
      (classify_waste_api decode o req).1.message
        = "Server processing failed (Error: cannot identify image file). Ensure the input file is a valid image." := by
  have hc : classify_image_mock (decode f.content) o
      = failureResult "cannot identify image file" := by
    rw [hd]
    rfl
  simp only [classify_waste_api, hf]
  rw [if_neg hn]
  simp [hc, failureResult, ApiBody.success, ApiBody.message]

/-- C4 amended witness: the 500 response observed at the concrete bad
request. -/
theorem C4_invalid_image_yields_500_witness :
    badImageReq.files.lookup "file"
        = some { filename := "bad.png", content := [0] } ∧
      (classify_waste_api (fun _ => false) oracle0 badImageReq).2 = 500 :=
  ⟨by decide,
    (C4_invalid_image_yields_500 (fun _ => false) oracle0 badImageReq
      { filename := "bad.png", content := [0] } (by decide) (by decide)
      rfl).1⟩

/-- A concrete request supplying decodable image bytes through a multipart
field named image and through a data-URL base64 string, with no field
named file. -/
def base64Req : HttpRequest :=
  { files := [("image", { filename := "ok.png", content := [1, 2, 3] })]
    image_base64 := some "data:image/png;base64,AAAA" }

/-- C5 counterexample: a request that supplies image bytes through the
multipart field image and through image_base64 is rejected with 400 and
the no-file-part message, so neither of those sources is accepted. -/
theorem C5_counterexample :
    (classify_waste_api (fun _ => true) oracle0 base64Req).2 = 400 ∧
      (classify_waste_api (fun _ => true) oracle0 base64Req).1.success
        = false ∧
      (classify_waste_api (fun _ => true) oracle0 base64Req).1.message
        = "No file part in the request" := by
  decide

/-- C5 amended: the endpoint reads image bytes only from the multipart
field named file: the response never depends on the image_base64 field,
and a request whose files carry no field named file is rejected with
status 400. -/
theorem C5_only_file_field (decode : List Nat → Bool) (o : RandOracle)
    (files : List (String × FilePart)) (b b2 : Option String) :
    classify_waste_api decode o { files := files, image_base64 := b }
        = classify_waste_api decode o { files := files, image_base64 := b2 } ∧
      (files.lookup "file" = none →
        (classify_waste_api decode o
          { files := files, image_base64 := b }).2 = 400) := by
  constructor
  · rfl
  · intro h
    simp [classify_waste_api, h]

/-- C5 amended witness: the insensitivity to image_base64 and the 400
rejection instantiated at the concrete fileless request. -/
theorem C5_only_file_field_witness :
    base64Req.files.lookup "file" = none ∧
      (classify_waste_api (fun _ => true) oracle0 base64Req).2 = 400 :=
  ⟨by decide,
    (C5_only_file_field (fun _ => true) oracle0 base64Req.files
      (some "data:image/png;base64,AAAA") none).2 (by decide)⟩

/-- A concrete request with no file part and no base64 field. -/
def emptyReq : HttpRequest := { files := [], image_base64 := none }

/-- C9: every request that supplies no file part, or a file part with an
empty filename, and no base64 field, is answered with status 400 and a
success false body carrying one of the two missing-input messages, which
are distinct from the invalid-image failure body. -/
theorem C9_missing_input_400 (decode : List Nat → Bool) (o : RandOracle)
    (req : HttpRequest)
    (hb : req.image_base64 = none)
    (h : req.files.lookup "file" = none ∨
      ∃ f, req.files.lookup "file" = some f ∧ f.filename = "") :
    (classify_waste_api decode o req).2 = 400 ∧
      (classify_waste_api decode o req).1.success = false ∧
      ((classify_waste_api decode o req).1.message
          = "No file part in the request" ∨
        (classify_waste_api decode o req).1.message = "No selected file") := by
  rcases h with h | ⟨f, hf, he⟩
  · simp [classify_waste_api, h, ApiBody.success, ApiBody.message]
  · simp [classify_waste_api, hf, he, ApiBody.success, ApiBody.message]

/-- C9 witness: the 400 response observed at the concrete request with no
file and no base64 field. -/
theorem C9_missing_input_400_witness :
    emptyReq.image_base64 = none ∧
      (classify_waste_api (fun _ => true) oracle0 emptyReq).2 = 400 ∧
      (classify_waste_api (fun _ => true) oracle0 emptyReq).1.success
        = false :=
  ⟨rfl,
    (C9_missing_input_400 (fun _ => true) oracle0 emptyReq rfl
      (Or.inl rfl)).1,
    (C9_missing_input_400 (fun _ => true) oracle0 emptyReq rfl
      (Or.inl rfl)).2.1⟩

end WasteApp
